import Mathlib

/-!
Verification of `tools/f2fsdist.py` (bcc): a shallow embedding of the
embedded BPF C program (entry/return latency correlation and log2
histogram aggregation), of the module-level startup code (interval
validation, kernel-symbol resolution, probe attachment) and of the
reporting loop, together with theorems settling the specification's
claims about them.

Machine integers are modelled as `Nat` with explicit reduction
modulo `2 ^ 64` where the C code relies on `u64` wrap-around, and the
`(s64)` cast is modelled by an explicit reinterpretation function.
-/

/-- `u64` subtraction `a - b` as in C: both operands reduced to 64 bits,
then subtraction modulo `2 ^ 64`. -/
def u64sub (a b : Nat) : Nat :=
  (a % 2 ^ 64 + (2 ^ 64 - b % 2 ^ 64)) % 2 ^ 64

/-- Reinterpretation of a `u64` bit pattern as a signed `s64`, as done by
the cast `(s64) delta` in `trace_return`. -/
def toS64 (d : Nat) : Int :=
  if d < 2 ^ 63 then (d : Int) else (d : Int) - 2 ^ 64

/-- Modelled from the spec: bcc's `bpf_log2l` helper is part of the bcc
repository's C helper headers, which are not present under `src/`; the
spec defines the histogram bucket index for elapsed time `t` as
`floor(log2(t))` with a minimum bucket of 0 for `t < 1`, which is exactly
`Nat.log2`. -/
def bpf_log2l (v : Nat) : Nat := Nat.log2 v

/-- The state of the BPF program of `f2fsdist.py`:
`start` is `BPF_HASH(start, u32)` (one shared map from thread id to a
`u64` timestamp, with no operation tag), and `dist` is
`BPF_HISTOGRAM(dist, dist_key_t)` keyed by `(op, slot)`. -/
structure BPFState where
  start : Nat → Option Nat
  dist : String × Nat → Nat

/-- The substituted `FILTER_PID` condition: when a pid was given on the
command line the template becomes `pid != <pid>`, otherwise the literal
`0` (false). -/
def FILTER_PID (filterPid : Option Nat) (pid : Nat) : Bool :=
  match filterPid with
  | some p => pid != p
  | none => false

/-- `trace_entry`: if the pid filter rejects the current task, return with
no side effect; otherwise record the current timestamp under the thread
id in `start` (overwriting any previous value). -/
def trace_entry (filterPid : Option Nat) (pid tid ts : Nat)
    (s : BPFState) : BPFState :=
  if FILTER_PID filterPid pid then s
  else { s with start := fun k => if k = tid then some ts else s.start k }

/-- `trace_read_entry` (generated only on the `generic_file_read_iter`
fallback path): additionally admits the call only when the file's
`f_op` pointer equals the resolved address of `f2fs_file_operations`. -/
def trace_read_entry (filterPid : Option Nat) (f2fsOpsAddr : Nat)
    (pid tid fop ts : Nat) (s : BPFState) : BPFState :=
  if FILTER_PID filterPid pid then s
  else if fop != f2fsOpsAddr then s
  else { s with start := fun k => if k = tid then some ts else s.start k }

/-- `trace_return`: look up the start timestamp for the thread; on a miss
return unchanged; otherwise compute the `u64` delta, delete the start
record, discard if `(s64) delta < 0`, else divide by `FACTOR` and
increment the histogram at key `(op, bpf_log2l delta)`. -/
def trace_return (factor : Nat) (op : String) (tid now : Nat)
    (s : BPFState) : BPFState :=
  match s.start tid with
  | none => s
  | some ts =>
    let delta := u64sub now ts
    let s1 : BPFState :=
      { s with start := fun k => if k = tid then none else s.start k }
    if toS64 delta < 0 then s1
    else
      let slot := bpf_log2l (delta / factor)
      { s1 with
        dist := fun k => if k = (op, slot) then s1.dist k + 1 else s1.dist k }

/-- `trace_read_return`. -/
def trace_read_return (factor : Nat) (tid now : Nat) (s : BPFState) :
    BPFState :=
  trace_return factor "read" tid now s

/-- `trace_write_return`. -/
def trace_write_return (factor : Nat) (tid now : Nat) (s : BPFState) :
    BPFState :=
  trace_return factor "write" tid now s

/-- `trace_open_return`. -/
def trace_open_return (factor : Nat) (tid now : Nat) (s : BPFState) :
    BPFState :=
  trace_return factor "open" tid now s

/-- `trace_fsync_return`. -/
def trace_fsync_return (factor : Nat) (tid now : Nat) (s : BPFState) :
    BPFState :=
  trace_return factor "fsync" tid now s

-- Helper lemmas about the arithmetic of `trace_return`.

theorem u64sub_eq_sub {now ts : Nat} (hle : ts ≤ now) (h64 : now < 2 ^ 64) :
    u64sub now ts = now - ts := by
  unfold u64sub
  have hts : ts < 2 ^ 64 := lt_of_le_of_lt hle h64
  rw [Nat.mod_eq_of_lt h64, Nat.mod_eq_of_lt hts]
  omega

theorem u64sub_skew {now ts : Nat} (hlt : now < ts) (h64 : ts < 2 ^ 64) :
    u64sub now ts = 2 ^ 64 - (ts - now) := by
  unfold u64sub
  have hn : now < 2 ^ 64 := lt_trans hlt h64
  rw [Nat.mod_eq_of_lt hn, Nat.mod_eq_of_lt h64]
  omega

theorem toS64_neg_iff {d : Nat} (h : d < 2 ^ 64) :
    toS64 d < 0 ↔ 2 ^ 63 ≤ d := by
  unfold toS64
  split <;> omega

theorem toS64_nonneg {d : Nat} (h : d < 2 ^ 63) : ¬ toS64 d < 0 := by
  unfold toS64
  split <;> omega

theorem trace_return_miss (factor : Nat) (op : String) (tid now : Nat)
    (s : BPFState) (h : s.start tid = none) :
    trace_return factor op tid now s = s := by
  unfold trace_return
  rw [h]

theorem trace_return_emit (factor : Nat) (op : String) (tid ts now : Nat)
    (s : BPFState) (hts : s.start tid = some ts) (hle : ts ≤ now)
    (h64 : now < 2 ^ 64) (hsm : now - ts < 2 ^ 63) :
    trace_return factor op tid now s =
      { start := fun k => if k = tid then none else s.start k,
        dist := fun k =>
          if k = (op, bpf_log2l ((now - ts) / factor)) then s.dist k + 1
          else s.dist k } := by
  unfold trace_return
  rw [hts]
  simp only [u64sub_eq_sub hle h64]
  rw [if_neg (toS64_nonneg hsm)]

theorem trace_return_discard (factor : Nat) (op : String) (tid ts now : Nat)
    (s : BPFState) (hts : s.start tid = some ts)
    (hneg : toS64 (u64sub now ts) < 0) :
    trace_return factor op tid now s =
      { start := fun k => if k = tid then none else s.start k,
        dist := s.dist } := by
  unfold trace_return
  rw [hts]
  simp only [if_pos hneg]

/-!
Module-level startup code of `f2fsdist.py`, from the parsed arguments to
the probe attachments, modelled as the list of externally visible actions
it performs.
-/

/-- The already-parsed command-line arguments (`args` after
`parser.parse_args()` with the numeric conversions applied). -/
structure Args where
  notimestamp : Bool
  milliseconds : Bool
  pid : Option Nat
  interval : Option Int
  count : Int
  ebpf : Bool

/-- One line of `/proc/kallsyms` after `line.rstrip().split(" ", 2)`:
address field, type field, and the remainder (symbol name, possibly
followed by a tab and a module name). -/
structure KallsymsLine where
  addr : String
  typ : String
  rest : String

/-- `name = name.split("\t")[0]`: the symbol name of a kallsyms line. -/
def kallsymsName (l : KallsymsLine) : String :=
  (l.rest.splitOn "\t").headD l.rest

/-- The kernel-side inputs consulted by the startup code:
whether `BPF.get_kprobe_functions(b'f2fs_file_read_iter')` is non-empty,
and the contents of `/proc/kallsyms`. -/
structure KernelEnv where
  has_f2fs_file_read_iter : Bool
  kallsyms : List KallsymsLine

/-- The scan of `/proc/kallsyms` for `f2fs_file_operations`: the first
matching line sets `f2fs_file_ops_addr = "0x" + addr` and breaks. -/
def find_f2fs_file_operations : List KallsymsLine → Option String
  | [] => none
  | l :: rest =>
    if kallsymsName l = "f2fs_file_operations" then some ("0x" ++ l.addr)
    else find_f2fs_file_operations rest

/-- Outcome of the read-probe resolution block: the function to attach to
(`f2fs_read_fn`), the entry handler to use (`f2fs_trace_read_fn`), and the
resolved `f2fs_file_operations` address on the fallback path. `none`
means resolution failed (fallback symbol absent). -/
def resolveRead (env : KernelEnv) : Option (String × String × Option String) :=
  if env.has_f2fs_file_read_iter then
    some ("f2fs_file_read_iter", "trace_entry", none)
  else
    match find_f2fs_file_operations env.kallsyms with
    | some a => some ("generic_file_read_iter", "trace_read_entry", some a)
    | none => none

/-- Externally visible actions of the startup code, in program order. -/
inductive StartAction where
  | printMsg (s : String)
  | printBpfText
  | loadBPF
  | attachKprobe (event : String) (fn : String)
  | attachKretprobe (event : String) (fn : String)
  | exitWith (status : Nat)
  | enterMainLoop
  deriving DecidableEq

/-- The module-level code of `f2fsdist.py` from the interval validation to
the main loop, as the sequence of actions it performs. Python's bare
`exit()` raises `SystemExit(None)` and terminates with status 0, hence
`exitWith 0` on every error path. `debug` is the constant 0, so the
program text is printed only under `--ebpf` (which then exits). -/
def startupActions (args : Args) (env : KernelEnv) : List StartAction :=
  if args.interval = some 0 then
    [.printMsg "ERROR: interval 0. Exiting.", .exitWith 0]
  else
    match resolveRead env with
    | none =>
      [.printMsg "ERROR: no f2fs_file_operations in /proc/kallsyms. Exiting.",
       .printMsg "HINT: the kernel should be built with CONFIG_KALLSYMS_ALL.",
       .exitWith 0]
    | some (f2fs_read_fn, f2fs_trace_read_fn, _) =>
      if args.ebpf then [.printBpfText, .exitWith 0]
      else
        [.loadBPF,
         .attachKprobe f2fs_read_fn f2fs_trace_read_fn,
         .attachKprobe "f2fs_file_write_iter" "trace_entry",
         .attachKprobe "f2fs_file_open" "trace_entry",
         .attachKprobe "f2fs_sync_file" "trace_entry",
         .attachKretprobe f2fs_read_fn "trace_read_return",
         .attachKretprobe "f2fs_file_write_iter" "trace_write_return",
         .attachKretprobe "f2fs_file_open" "trace_open_return",
         .attachKretprobe "f2fs_sync_file" "trace_fsync_return",
         .printMsg "Tracing f2fs operation latency... Hit Ctrl-C to end.",
         .enterMainLoop]

/-- An action is a probe attachment. -/
def isAttach (a : StartAction) : Bool :=
  match a with
  | .attachKprobe _ _ => true
  | .attachKretprobe _ _ => true
  | _ => false

/-!
The reporting loop (`while (1): ...`). Each iteration blocks in `sleep`;
the iteration's wake reason is an element of a stream of booleans, `true`
meaning the sleep was interrupted by SIGINT (`KeyboardInterrupt`, i.e.
`exiting = 1`), `false` meaning the sleep returned normally. The loop is
modelled as the list of actions performed while consuming a finite prefix
of that stream.
-/

/-- Externally visible actions of one run of the reporting loop. -/
inductive LoopAction where
  | printBlank
  | printTimestamp
  | printHist
  | clearHist
  | exitProc
  deriving DecidableEq

/-- The reporting loop: on each wake, print a blank line, print the
timestamp when interval reporting is active and timestamps are not
suppressed, render the histogram (`dist.print_log2_hist`), clear it
(`dist.clear`), decrement the countdown, and exit when interrupted or
when the countdown reaches zero. -/
def reportLoop (interval : Option Int) (notimestamp : Bool)
    (countdown : Int) : List Bool → List LoopAction
  | [] => []
  | interrupted :: rest =>
    let cycle :=
      [LoopAction.printBlank] ++
      (if interval.isSome && !notimestamp then [LoopAction.printTimestamp]
       else []) ++
      [LoopAction.printHist, LoopAction.clearHist]
    if interrupted || countdown - 1 = 0 then cycle ++ [LoopAction.exitProc]
    else cycle ++ reportLoop interval notimestamp (countdown - 1) rest

/-!
Further helper lemmas shared by the claim theorems.
-/

theorem bpf_log2l_eq_log (v : Nat) : bpf_log2l v = Nat.log 2 (max v 1) := by
  unfold bpf_log2l
  rw [Nat.log2_eq_log_two]
  cases v with
  | zero => simp
  | succ n => rw [Nat.max_eq_left (Nat.succ_le_succ (Nat.zero_le n))]

theorem bpf_log2l_mono {a b : Nat} (h : a ≤ b) : bpf_log2l a ≤ bpf_log2l b := by
  unfold bpf_log2l
  rw [Nat.log2_eq_log_two, Nat.log2_eq_log_two]
  exact Nat.log_mono_right h

theorem find_f2fs_file_operations_eq_none (ls : List KallsymsLine)
    (h : ∀ l ∈ ls, kallsymsName l ≠ "f2fs_file_operations") :
    find_f2fs_file_operations ls = none := by
  induction ls with
  | nil => rfl
  | cons l rest ih =>
    unfold find_f2fs_file_operations
    rw [if_neg (h l (List.mem_cons_self l rest))]
    exact ih fun x hx => h x (List.mem_cons_of_mem l hx)

/-- Concrete inputs used by the witness theorems. -/
def argsPlain : Args :=
  { notimestamp := false, milliseconds := false, pid := none,
    interval := none, count := 99999999, ebpf := false }

/-- A kernel environment offering neither `f2fs_file_read_iter` nor a
`f2fs_file_operations` symbol. -/
def envNoSymbols : KernelEnv :=
  { has_f2fs_file_read_iter := false, kallsyms := [] }

/-- A kernel environment offering the dedicated `f2fs_file_read_iter`. -/
def envDedicated : KernelEnv :=
  { has_f2fs_file_read_iter := true, kallsyms := [] }

/-- An empty BPF state. -/
def bpfEmpty : BPFState := { start := fun _ => none, dist := fun _ => 0 }

/-- A BPF state with a start record `7 ↦ 0`. -/
def bpfAtZero : BPFState :=
  { start := fun k => if k = 7 then some 0 else none, dist := fun _ => 0 }

/-- A BPF state with a start record `7 ↦ 1000`. -/
def bpfAt1000 : BPFState :=
  { start := fun k => if k = 7 then some 1000 else none, dist := fun _ => 0 }

/-!
Claim theorems.
-/

/-- C1: for every non-negative integer elapsed time `t = (now - ts) / factor`
(after unit conversion), the histogram bucket the return handler increments
is `floor(log2(max(t,1)))` (bucket 0 for `t < 1`), and the bucket index is
monotonically non-decreasing in `t`. -/
theorem bucket_index_spec (factor : Nat) (op : String) (tid ts now : Nat)
    (s : BPFState) (hts : s.start tid = some ts) (hle : ts ≤ now)
    (h64 : now < 2 ^ 64) (hsm : now - ts < 2 ^ 63) :
    (trace_return factor op tid now s).dist
        (op, Nat.log 2 (max ((now - ts) / factor) 1)) =
      s.dist (op, Nat.log 2 (max ((now - ts) / factor) 1)) + 1
    ∧ ∀ a b : Nat, a ≤ b → bpf_log2l a ≤ bpf_log2l b := by
  constructor
  · rw [trace_return_emit factor op tid ts now s hts hle h64 hsm]
    simp [bpf_log2l_eq_log]
  · exact fun a b hab => bpf_log2l_mono hab

/-- Witness for C1 at `factor = 1000`, `ts = 0`, `now = 3000`. -/
theorem bucket_index_spec_witness :
    bpfAtZero.start 7 = some 0
    ∧ (trace_return 1000 "read" 7 3000 bpfAtZero).dist
          ("read", Nat.log 2 (max ((3000 - 0) / 1000) 1)) =
        bpfAtZero.dist ("read", Nat.log 2 (max ((3000 - 0) / 1000) 1)) + 1 :=
  ⟨by decide,
   (bucket_index_spec 1000 "read" 7 0 3000 bpfAtZero (by decide) (by decide)
      (by decide) (by decide)).1⟩

/-- C3: on a single thread, a second entry before any return overwrites the
first timestamp (last-write-wins, no queuing); the return then consumes
exactly that most recent timestamp — it removes it from the map, increments
exactly the bucket computed from `ts2`, and leaves every other histogram
key unchanged. -/
theorem entry_overwrite_return_consumes (fp : Option Nat)
    (pid tid ts1 ts2 now factor : Nat) (op : String) (s : BPFState)
    (hf : FILTER_PID fp pid = false) (hle : ts2 ≤ now) (h64 : now < 2 ^ 64)
    (hsm : now - ts2 < 2 ^ 63) :
    (trace_entry fp pid tid ts2 (trace_entry fp pid tid ts1 s)).start tid
        = some ts2
    ∧ (trace_return factor op tid now
          (trace_entry fp pid tid ts2 (trace_entry fp pid tid ts1 s))).start
        tid = none
    ∧ (trace_return factor op tid now
          (trace_entry fp pid tid ts2 (trace_entry fp pid tid ts1 s))).dist
          (op, bpf_log2l ((now - ts2) / factor))
        = (trace_entry fp pid tid ts2 (trace_entry fp pid tid ts1 s)).dist
            (op, bpf_log2l ((now - ts2) / factor)) + 1
    ∧ ∀ k, k ≠ (op, bpf_log2l ((now - ts2) / factor)) →
        (trace_return factor op tid now
            (trace_entry fp pid tid ts2 (trace_entry fp pid tid ts1 s))).dist
          k = (trace_entry fp pid tid ts2 (trace_entry fp pid tid ts1 s)).dist k := by
  have h2 :
      (trace_entry fp pid tid ts2 (trace_entry fp pid tid ts1 s)).start tid
        = some ts2 := by
    simp [trace_entry, hf]
  have he := trace_return_emit factor op tid ts2 now
    (trace_entry fp pid tid ts2 (trace_entry fp pid tid ts1 s)) h2 hle h64 hsm
  refine ⟨h2, ?_, ?_, ?_⟩
  · rw [he]
    simp
  · rw [he]
    simp
  · intro k hk
    rw [he]
    simp [hk]

/-- Witness for C3 at `ts1 = 10`, `ts2 = 20`, `now = 3000`. -/
theorem entry_overwrite_return_consumes_witness :
    (trace_entry none 5 7 20 (trace_entry none 5 7 10 bpfEmpty)).start 7
      = some 20 :=
  (entry_overwrite_return_consumes none 5 7 10 20 3000 1000 "read" bpfEmpty
    (by decide) (by decide) (by decide) (by decide)).1

/-- C5: a return whose computed elapsed time is negative (the return
timestamp lies before the recorded entry timestamp, within a skew of at
most `2 ^ 63`) produces no histogram entry: the start record is removed
and the histogram is left completely unchanged. -/
theorem negative_elapsed_discarded (factor tid ts now : Nat) (op : String)
    (s : BPFState) (hts : s.start tid = some ts) (hlt : now < ts)
    (h64 : ts < 2 ^ 64) (hskew : ts - now ≤ 2 ^ 63) :
    (trace_return factor op tid now s).start tid = none
    ∧ (trace_return factor op tid now s).dist = s.dist := by
  have hneg : toS64 (u64sub now ts) < 0 := by
    rw [u64sub_skew hlt h64]
    refine (toS64_neg_iff ?_).2 ?_ <;> omega
  rw [trace_return_discard factor op tid ts now s hts hneg]
  exact ⟨by simp, rfl⟩

/-- Witness for C5 at `ts = 1000`, `now = 900`. -/
theorem negative_elapsed_discarded_witness :
    (trace_return 1000 "read" 7 900 bpfAt1000).start 7 = none
    ∧ (trace_return 1000 "read" 7 900 bpfAt1000).dist = bpfAt1000.dist :=
  negative_elapsed_discarded 1000 7 1000 900 "read" bpfAt1000 (by decide)
    (by decide) (by decide) (by decide)

/-- C6: with a pid filter configured, an entry event from a non-matching
process changes nothing (no ThreadTimestamp entry is created), and a
subsequent return for the same thread finds no start record and no-ops,
producing no histogram entry. -/
theorem pid_filter_no_record (fpid pid tid ts now factor : Nat)
    (op : String) (s : BPFState) (hne : pid ≠ fpid)
    (hstart : s.start tid = none) :
    trace_entry (some fpid) pid tid ts s = s
    ∧ (trace_entry (some fpid) pid tid ts s).start tid = none
    ∧ trace_return factor op tid now (trace_entry (some fpid) pid tid ts s)
        = trace_entry (some fpid) pid tid ts s := by
  have hfil : FILTER_PID (some fpid) pid = true := by
    simp [FILTER_PID, hne]
  have h1 : trace_entry (some fpid) pid tid ts s = s := by
    simp [trace_entry, hfil]
  refine ⟨h1, ?_, ?_⟩
  · rw [h1]
    exact hstart
  · rw [h1]
    exact trace_return_miss factor op tid now s hstart

/-- Witness for C6 with filter pid 181 and event pid 300. -/
theorem pid_filter_no_record_witness :
    trace_entry (some 181) 300 7 42 bpfEmpty = bpfEmpty
    ∧ (trace_entry (some 181) 300 7 42 bpfEmpty).start 7 = none
    ∧ trace_return 1000 "read" 7 5000 (trace_entry (some 181) 300 7 42 bpfEmpty)
        = trace_entry (some 181) 300 7 42 bpfEmpty :=
  pid_filter_no_record 181 300 7 42 5000 1000 "read" bpfEmpty (by decide)
    (by decide)

/-- C10: the `(s64)` cast reinterprets the unsigned 64-bit delta as signed,
so every elapsed time of `2 ^ 63` nanoseconds or more is treated as
negative and silently discarded: the sign test fires, the histogram is
unchanged, and the start record is removed. -/
theorem large_delta_treated_negative (factor tid ts now : Nat) (op : String)
    (s : BPFState) (hts : s.start tid = some ts) (hle : ts ≤ now)
    (h64 : now < 2 ^ 64) (hbig : 2 ^ 63 ≤ now - ts) :
    toS64 (u64sub now ts) < 0
    ∧ (trace_return factor op tid now s).dist = s.dist
    ∧ (trace_return factor op tid now s).start tid = none := by
  have hneg : toS64 (u64sub now ts) < 0 := by
    rw [u64sub_eq_sub hle h64]
    refine (toS64_neg_iff ?_).2 hbig
    omega
  refine ⟨hneg, ?_, ?_⟩ <;>
    rw [trace_return_discard factor op tid ts now s hts hneg]
  simp

/-- Witness for C10 at `ts = 0`, `now = 2 ^ 63`. -/
theorem large_delta_treated_negative_witness :
    toS64 (u64sub (2 ^ 63) 0) < 0
    ∧ (trace_return 1000 "read" 7 (2 ^ 63) bpfAtZero).dist = bpfAtZero.dist
    ∧ (trace_return 1000 "read" 7 (2 ^ 63) bpfAtZero).start 7 = none :=
  large_delta_treated_negative 1000 7 0 (2 ^ 63) "read" bpfAtZero (by decide)
    (by decide) (by decide) (by decide)

/-- C2 counterexample: with a kernel lacking both `f2fs_file_read_iter`
and `f2fs_file_operations`, the startup fails as claimed but its only
exit action carries status 0 — Python's bare `exit()` — not a non-zero
status. -/
theorem resolution_failure_status_zero_cex :
    startupActions argsPlain envNoSymbols =
      [.printMsg "ERROR: no f2fs_file_operations in /proc/kallsyms. Exiting.",
       .printMsg "HINT: the kernel should be built with CONFIG_KALLSYMS_ALL.",
       .exitWith 0]
    ∧ ((startupActions argsPlain envNoSymbols).all fun a =>
        match a with
        | StartAction.exitWith st => st == 0
        | _ => true) = true := by
  constructor <;> rfl

/-- C2 (amended): whenever symbol resolution fails at startup, the process
exits with an explanatory message and exit status zero (Python `exit()`
with no argument), before any probe is attached. -/
theorem resolution_failure_exit_message (args : Args) (env : KernelEnv)
    (hi : args.interval ≠ some 0)
    (hd : env.has_f2fs_file_read_iter = false)
    (hs : find_f2fs_file_operations env.kallsyms = none) :
    startupActions args env =
      [.printMsg "ERROR: no f2fs_file_operations in /proc/kallsyms. Exiting.",
       .printMsg "HINT: the kernel should be built with CONFIG_KALLSYMS_ALL.",
       .exitWith 0]
    ∧ ∀ a ∈ startupActions args env, isAttach a = false := by
  have hr : resolveRead env = none := by
    simp [resolveRead, hd, hs]
  have he : startupActions args env =
      [.printMsg "ERROR: no f2fs_file_operations in /proc/kallsyms. Exiting.",
       .printMsg "HINT: the kernel should be built with CONFIG_KALLSYMS_ALL.",
       .exitWith 0] := by
    unfold startupActions
    rw [if_neg hi, hr]
  refine ⟨he, ?_⟩
  rw [he]
  intro a ha
  simp only [List.mem_cons, List.not_mem_nil, or_false] at ha
  rcases ha with rfl | rfl | rfl <;> rfl

/-- Witness for C2 (amended) at a concrete environment with an empty
symbol table. -/
theorem resolution_failure_exit_message_witness :
    argsPlain.interval ≠ some 0
    ∧ startupActions argsPlain envNoSymbols =
        [.printMsg "ERROR: no f2fs_file_operations in /proc/kallsyms. Exiting.",
         .printMsg "HINT: the kernel should be built with CONFIG_KALLSYMS_ALL.",
         .exitWith 0] :=
  ⟨by decide,
   (resolution_failure_exit_message argsPlain envNoSymbols (by decide)
      (by decide) (by decide)).1⟩

/-- C4: when the kernel symbol table lacks both the dedicated
`f2fs_file_read_iter` function and the fallback `f2fs_file_operations`
symbol, the program exits with a diagnostic including the kernel
build-option hint, and the startup trace contains no probe-attachment
call and no program load. -/
theorem resolution_failure_hint_no_attach (args : Args) (env : KernelEnv)
    (hi : args.interval ≠ some 0)
    (hd : env.has_f2fs_file_read_iter = false)
    (habsent : ∀ l ∈ env.kallsyms, kallsymsName l ≠ "f2fs_file_operations") :
    StartAction.printMsg
        "HINT: the kernel should be built with CONFIG_KALLSYMS_ALL."
      ∈ startupActions args env
    ∧ StartAction.exitWith 0 ∈ startupActions args env
    ∧ ∀ a ∈ startupActions args env,
        isAttach a = false ∧ a ≠ StartAction.loadBPF := by
  have hr : resolveRead env = none := by
    simp [resolveRead, hd, find_f2fs_file_operations_eq_none env.kallsyms habsent]
  have he : startupActions args env =
      [.printMsg "ERROR: no f2fs_file_operations in /proc/kallsyms. Exiting.",
       .printMsg "HINT: the kernel should be built with CONFIG_KALLSYMS_ALL.",
       .exitWith 0] := by
    unfold startupActions
    rw [if_neg hi, hr]
  rw [he]
  refine ⟨by simp, by simp, ?_⟩
  intro a ha
  simp only [List.mem_cons, List.not_mem_nil, or_false] at ha
  rcases ha with rfl | rfl | rfl <;> exact ⟨rfl, by simp⟩

/-- Witness for C4 at a concrete environment with an empty symbol
table. -/
theorem resolution_failure_hint_no_attach_witness :
    StartAction.printMsg
        "HINT: the kernel should be built with CONFIG_KALLSYMS_ALL."
      ∈ startupActions argsPlain envNoSymbols :=
  (resolution_failure_hint_no_attach argsPlain envNoSymbols (by decide)
    (by decide) (by simp [envNoSymbols])).1

/-- C7: a configured interval equal to zero is rejected at configuration
time: the startup performs only the error print and the exit, with no
program load, no probe attachment, and no entry into the reporting
loop. -/
theorem interval_zero_rejected (args : Args) (env : KernelEnv)
    (h : args.interval = some 0) :
    startupActions args env =
      [.printMsg "ERROR: interval 0. Exiting.", .exitWith 0]
    ∧ ∀ a ∈ startupActions args env,
        isAttach a = false ∧ a ≠ StartAction.loadBPF
          ∧ a ≠ StartAction.enterMainLoop := by
  have he : startupActions args env =
      [.printMsg "ERROR: interval 0. Exiting.", .exitWith 0] := by
    unfold startupActions
    rw [if_pos h]
  rw [he]
  refine ⟨rfl, ?_⟩
  intro a ha
  simp only [List.mem_cons, List.not_mem_nil, or_false] at ha
  rcases ha with rfl | rfl <;> exact ⟨rfl, by simp, by simp⟩

/-- Witness for C7 with `interval = 0` on a dedicated-function kernel. -/
theorem interval_zero_rejected_witness :
    startupActions
        { notimestamp := false, milliseconds := false, pid := none,
          interval := some 0, count := 99999999, ebpf := false }
        envDedicated =
      [.printMsg "ERROR: interval 0. Exiting.", .exitWith 0] :=
  (interval_zero_rejected
    { notimestamp := false, milliseconds := false, pid := none,
      interval := some 0, count := 99999999, ebpf := false }
    envDedicated (by decide)).1

/-- C8: if no report interval was configured, the reporting loop performs
exactly one blank-print, render, clear cycle — with no timestamp line —
when its single indefinite wait is ended by the termination signal, and
then the process exits, whatever the remaining countdown or later wake
events. -/
theorem no_interval_single_report (notimestamp : Bool) (countdown : Int)
    (rest : List Bool) :
    reportLoop none notimestamp countdown (true :: rest) =
      [.printBlank, .printHist, .clearHist, .exitProc] := by
  simp [reportLoop]

/-- C9: all four operations share the single `start` map keyed only by
thread id: a timestamp recorded by `trace_entry` (the entry handler
attached to `f2fs_file_open`, `f2fs_file_write_iter` and
`f2fs_sync_file` alike) is consumed by `trace_write_return` and counted
under the "write" label, and the startup wiring indeed attaches
`trace_entry` to `f2fs_file_open` and `trace_write_return` to the write
return. -/
theorem shared_start_map_cross_operation (fp : Option Nat)
    (pid tid ts now factor : Nat) (s : BPFState)
    (hf : FILTER_PID fp pid = false) (hle : ts ≤ now) (h64 : now < 2 ^ 64)
    (hsm : now - ts < 2 ^ 63) :
    (trace_write_return factor tid now (trace_entry fp pid tid ts s)).dist
        ("write", bpf_log2l ((now - ts) / factor))
      = (trace_entry fp pid tid ts s).dist
          ("write", bpf_log2l ((now - ts) / factor)) + 1
    ∧ (trace_write_return factor tid now
        (trace_entry fp pid tid ts s)).start tid = none
    ∧ StartAction.attachKprobe "f2fs_file_open" "trace_entry"
        ∈ startupActions argsPlain envDedicated
    ∧ StartAction.attachKretprobe "f2fs_file_write_iter" "trace_write_return"
        ∈ startupActions argsPlain envDedicated := by
  have h1 : (trace_entry fp pid tid ts s).start tid = some ts := by
    simp [trace_entry, hf]
  have he := trace_return_emit factor "write" tid ts now
    (trace_entry fp pid tid ts s) h1 hle h64 hsm
  refine ⟨?_, ?_, by decide, by decide⟩
  · unfold trace_write_return
    rw [he]
    simp
  · unfold trace_write_return
    rw [he]
    simp

/-- Witness for C9 at `ts = 0`, `now = 3000`, `factor = 1000`. -/
theorem shared_start_map_cross_operation_witness :
    (trace_write_return 1000 7 3000 (trace_entry none 5 7 0 bpfEmpty)).dist
        ("write", bpf_log2l ((3000 - 0) / 1000))
      = (trace_entry none 5 7 0 bpfEmpty).dist
          ("write", bpf_log2l ((3000 - 0) / 1000)) + 1 :=
  (shared_start_map_cross_operation none 5 7 0 3000 1000 bpfEmpty (by decide)
    (by decide) (by decide) (by decide)).1
